import Mathlib

/-!
Verification of the dask execution backend (ibis): a shallow embedding of
`src/ibis/dask/client.py` and `src/ibis/dask/execution/generic.py`, together
with theorems settling the frozen claims about the natural-language
specification of the system.
-/

set_option autoImplicit false

/-- Decidable equality of `Except` results, used to evaluate the embedding
on concrete inputs. -/
instance {ε α : Type} [DecidableEq ε] [DecidableEq α] :
    DecidableEq (Except ε α) := fun x y =>
  match x, y with
  | .ok a, .ok b =>
      if h : a = b then .isTrue (by rw [h])
      else .isFalse (fun hc => h (Except.ok.inj hc))
  | .error a, .error b =>
      if h : a = b then .isTrue (by rw [h])
      else .isFalse (fun hc => h (Except.error.inj hc))
  | .ok _, .error _ => .isFalse (fun hc => Except.noConfusion hc)
  | .error _, .ok _ => .isFalse (fun hc => Except.noConfusion hc)

namespace IbisDask

/-- The ibis logical types (`ibis.expr.datatypes`, `dt.*`) that appear in the
sources: `boolean`, the integer widths, the float widths, `string`, `binary`,
`null`, `decimal`, `date`, `time`, `timestamp` with optional timezone,
`interval` with a unit, `category`, `struct` and `array` of a value type.
Two logical types are equal by structural comparison. -/
inductive DType where
  | boolean
  | int8 | int16 | int32 | int64
  | uint8 | uint16 | uint32 | uint64
  | float16 | float32 | float64
  | string | binary | null | decimal
  | date | time
  | timestamp (timezone : Option String)
  | interval (unit : String)
  | category
  | struct
  | array (value_type : DType)
deriving DecidableEq, Repr

/-- The native numpy/pandas dtypes appearing in `client.py`: the numeric
dtypes, `object`, the unicode string dtype (`np.dtype(str)`), `datetime64`
(optionally with a unit), `timedelta64` (optionally with a unit), the pandas
`DatetimeTZDtype('ns', tz)` and the pandas `CategoricalDtype`. -/
inductive NpDtype where
  | bool_
  | int8 | int16 | int32 | int64
  | uint8 | uint16 | uint32 | uint64
  | float16 | float32 | float64
  | object_
  | unicode_
  | datetime64 (unit : Option String)
  | timedelta64 (unit : Option String)
  | datetimeTZ (tz : String)
  | categorical
deriving DecidableEq, Repr

/-- A type-coercion failure (`TypeError` raised by `from_numpy_dtype` in
`client.py` when a numpy dtype has no ibis mapping). -/
inductive TypeErr where
  | unsupportedNumpyDtype (d : NpDtype)
deriving DecidableEq, Repr

/-- The `_ibis_dtypes` table of `client.py` (lines 32-56): a mapping keyed on
the *class* of the ibis dtype, giving its numpy dtype.  Classes absent from
the table (`float16`, `interval`, `category`) return `none`. -/
def _ibis_dtypes : DType → Option NpDtype
  | .boolean => some .bool_
  | .null => some .object_
  | .array _ => some .object_
  | .string => some .object_
  | .binary => some .object_
  | .date => some (.datetime64 (some "ns"))
  | .time => some (.timedelta64 (some "ns"))
  | .timestamp _ => some (.datetime64 (some "ns"))
  | .int8 => some .int8
  | .int16 => some .int16
  | .int32 => some .int32
  | .int64 => some .int64
  | .uint8 => some .uint8
  | .uint16 => some .uint16
  | .uint32 => some .uint32
  | .uint64 => some .uint64
  | .float32 => some .float32
  | .float64 => some .float64
  | .decimal => some .object_
  | .struct => some .object_
  | _ => none

/-- `ibis_dtype_to_dask` (`client.py` lines 182-195): timezone-aware
timestamps become `DatetimeTZDtype('ns', tz)`, intervals become
`timedelta64[unit]`, categories become `CategoricalDtype`, classes in
`_ibis_dtypes` use the table, and everything else falls back to `object`. -/
def ibis_dtype_to_dask : DType → NpDtype
  | .timestamp (some tz) => .datetimeTZ tz
  | .timestamp none =>
      match _ibis_dtypes (.timestamp none) with
      | some d => d
      | none => .object_
  | .interval u => .timedelta64 (some u)
  | .category => .categorical
  | t =>
      match _ibis_dtypes t with
      | some d => d
      | none => .object_

/-- The `_numpy_dtypes` table of `client.py` (lines 59-82), keyed on actual
numpy dtypes: only the listed dtypes have an inverse mapping.  Note that
`np.dtype('unicode')` and `np.dtype('str')` are the same dtype, both mapped
to `dt.string`; `np.dtype('timedelta64')` (no unit) maps to the default
`dt.interval` whose unit is `'s'`; only the `ns` units of `datetime64` and
`timedelta64` are keys. -/
def _numpy_dtypes : NpDtype → Option DType
  | .bool_ => some .boolean
  | .int8 => some .int8
  | .int16 => some .int16
  | .int32 => some .int32
  | .int64 => some .int64
  | .uint8 => some .uint8
  | .uint16 => some .uint16
  | .uint32 => some .uint32
  | .uint64 => some .uint64
  | .float16 => some .float16
  | .float32 => some .float32
  | .float64 => some .float64
  | .unicode_ => some .string
  | .datetime64 none => some (.timestamp none)
  | .datetime64 (some u) => if u = "ns" then some (.timestamp none) else none
  | .timedelta64 none => some (.interval "s")
  | .timedelta64 (some u) => if u = "ns" then some (.interval "ns") else none
  | _ => none

/-- `from_numpy_dtype` (`client.py` lines 94-103): look a numpy dtype up in
`_numpy_dtypes`, raising `TypeError` when it is not a key. -/
def from_numpy_dtype (value : NpDtype) : Except TypeErr DType :=
  match _numpy_dtypes value with
  | some t => .ok t
  | none => .error (.unsupportedNumpyDtype value)

/-- The complete `dt.dtype` dispatcher for native dtypes registered in
`client.py`: `DatetimeTZDtype` (lines 106-108) yields a timezone-aware
timestamp, `CategoricalDtype` (lines 111-113) yields `dt.Category()`, and
plain numpy dtypes go through `from_numpy_dtype`. -/
def dt_dtype : NpDtype → Except TypeErr DType
  | .datetimeTZ tz => .ok (.timestamp (some tz))
  | .categorical => .ok .category
  | d => from_numpy_dtype d

/-- An element of a columnar series: an integer-like value, a string, a
missing value (`NaN`/`NaT`/`None`), or an array value (a list of primitive
numbers, as produced by `ops.Cast` to an array type). -/
inductive Cell where
  | iv (n : Int)
  | sv (s : String)
  | nullc
  | arrc (xs : List Int)
deriving DecidableEq, Repr

/-- A `dask.dataframe.Series`: a native dtype together with the column of
cell values.  Positional alignment stands in for the pandas row index. -/
structure DSeries where
  dtype : NpDtype
  values : List Cell
deriving DecidableEq, Repr

/-- A `dask.dataframe.groupby.SeriesGroupBy`: the underlying series
(`data.obj`) plus its grouping keys (`data.grouper.groupings`). -/
structure SeriesGroupBy where
  obj : DSeries
  groupings : List String
deriving DecidableEq, Repr

/-- Model of the numpy scalar constructor `numpy_type(x)` applied to an
already well-typed primitive value: value-preserving.  Conversion between
distinct primitive dtypes is not exercised by any claim and is modelled as
preserving the payload. -/
def npCast (_d : NpDtype) (n : Int) : Int := n

/-- `Series.astype(dtype)`: casting a series to its own dtype copies it
(value-identical, hence the identity in a value-level embedding); casting to
a different dtype retags the series, converting the cells (modelled as
payload-preserving, see `npCast`). -/
def astype (s : DSeries) (d : NpDtype) : DSeries :=
  if s.dtype = d then s else ⟨d, s.values⟩

/-- Modelled from the spec: the `constants.IBIS_TYPE_TO_DASK_TYPE` mapping
(module `ibis.dask.execution.constants` is not among the sources).  Per the
spec's Type Coercion Layer and the array-cast handler's own error message
(generic.py lines 106-111: an array's value type "must be a primitive type
(e.g., number, string, or timestamp)"), primitive ibis types map to their
native dtype per the Type Coercion Layer and composite types are not keys. -/
def ibisTypeToDaskType : DType → Option NpDtype
  | .array _ => none
  | .struct => none
  | t => some (ibis_dtype_to_dask t)

/-- Failures of the series `Cast` handlers in `generic.py`. -/
inductive CastErr where
  | arrayValueTypeNotPrimitive
  | keyError
  | typeErrorCast (from_ to_ : DType)
deriving DecidableEq, Repr

/-- `execute_cast_series_generic` (generic.py lines 98-100):
`data.astype(constants.IBIS_TYPE_TO_DASK_TYPE[type])`; a type that is not a
key of the constants table raises `KeyError`. -/
def execute_cast_series_generic (data : DSeries) (type : DType) :
    Except CastErr DSeries :=
  match ibisTypeToDaskType type with
  | some d => .ok (astype data d)
  | none => .error .keyError

/-- `execute_cast_series_group_by` (generic.py lines 92-95): cast the
underlying series with the generic handler, then re-group the result by the
original groupings. -/
def execute_cast_series_group_by (data : SeriesGroupBy) (type : DType) :
    Except CastErr SeriesGroupBy :=
  (execute_cast_series_generic data.obj type).map
    (fun result => ⟨result, data.groupings⟩)

/-- The per-cell body of the array cast's
`data.map(lambda array: list(map(numpy_type, array)))`: convert every
element of an array cell through the numpy constructor. -/
def castArrayCell (numpy_type : NpDtype) : Cell → Cell
  | .arrc xs => .arrc (xs.map (npCast numpy_type))
  | c => c

/-- `execute_cast_series_array` (generic.py lines 103-114): requires the
array's value type to be primitive (a key of the constants table), then maps
the numpy conversion over the elements of every array cell. -/
def execute_cast_series_array (data : DSeries) (type : DType) :
    Except CastErr DSeries :=
  match type with
  | .array value_type =>
      match ibisTypeToDaskType value_type with
      | none => .error .arrayValueTypeNotPrimitive
      | some numpy_type =>
          .ok ⟨data.dtype, data.values.map (castArrayCell numpy_type)⟩
  | _ => .error .keyError

/-- Coarse model of `dd.Series.map_partitions(to_datetime, ...)` used by the
string/integer-to-timestamp cast path (generic.py lines 132-142): numeric
strings parse to an epoch value, unparsable strings become `NaT`; the dtype
becomes `datetime64[ns]` or the timezone-aware dtype.  No claim depends on
the parsed values, only on which branch runs. -/
def to_datetime_series (data : DSeries) (tz : Option String) : DSeries :=
  ⟨match tz with
   | none => .datetime64 (some "ns")
   | some z => .datetimeTZ z,
   data.values.map (fun c =>
     match c with
     | .sv s => match s.toInt? with | some n => .iv n | none => .nullc
     | c => c)⟩

/-- `execute_cast_series_timestamp` (generic.py lines 117-144): a no-op when
the source logical type equals the target; datetime-like sources are
re-typed with `astype`; string and integer sources are parsed with
`to_datetime` and localized; everything else raises `TypeError`. -/
def execute_cast_series_timestamp (from_type : DType) (data : DSeries)
    (type : DType) : Except CastErr DSeries :=
  if from_type = type then .ok data
  else
    match type with
    | .timestamp tz =>
        match from_type with
        | .timestamp _ =>
            .ok (astype data
              (match tz with
               | none => .datetime64 (some "ns")
               | some z => .datetimeTZ z))
        | .date =>
            .ok (astype data
              (match tz with
               | none => .datetime64 (some "ns")
               | some z => .datetimeTZ z))
        | .string => .ok (to_datetime_series data tz)
        | .int8 => .ok (to_datetime_series data tz)
        | .int16 => .ok (to_datetime_series data tz)
        | .int32 => .ok (to_datetime_series data tz)
        | .int64 => .ok (to_datetime_series data tz)
        | .uint8 => .ok (to_datetime_series data tz)
        | .uint16 => .ok (to_datetime_series data tz)
        | .uint32 => .ok (to_datetime_series data tz)
        | .uint64 => .ok (to_datetime_series data tz)
        | _ => .error (.typeErrorCast from_type type)
    | _ => .error .keyError

/-- `execute_cast_series_date` (generic.py lines 147-181): a no-op when the
source type equals the target; timestamps are normalized to midnight;
strings are parsed then normalized; integers are read as day offsets;
everything else raises `TypeError`.  Normalization is modelled as a cell map
that keeps the payload (no claim depends on the normalized values). -/
def execute_cast_series_date (from_type : DType) (data : DSeries)
    (type : DType) : Except CastErr DSeries :=
  if from_type = type then .ok data
  else
    match from_type with
    | .timestamp _ => .ok ⟨.datetime64 (some "ns"), data.values⟩
    | .string => .ok (to_datetime_series data none)
    | .int8 => .ok (to_datetime_series data none)
    | .int16 => .ok (to_datetime_series data none)
    | .int32 => .ok (to_datetime_series data none)
    | .int64 => .ok (to_datetime_series data none)
    | .uint8 => .ok (to_datetime_series data none)
    | .uint16 => .ok (to_datetime_series data none)
    | .uint32 => .ok (to_datetime_series data none)
    | .uint64 => .ok (to_datetime_series data none)
    | _ => .error (.typeErrorCast from_type type)

/-- The `ops.Cast` dispatch over a plain columnar series, resolved by the
class of the target logical type exactly as the registrations in generic.py
do: `dt.Array` targets use the array handler (line 103), `dt.Timestamp`
targets the timestamp handler (line 117), `dt.Date` targets the date handler
(line 147), and every other target the generic handler (line 98). -/
def cast_series (from_type : DType) (data : DSeries) (type : DType) :
    Except CastErr DSeries :=
  match type with
  | .array _ => execute_cast_series_array data type
  | .timestamp _ => execute_cast_series_timestamp from_type data type
  | .date => execute_cast_series_date from_type data type
  | _ => execute_cast_series_generic data type

/-- The logical types whose self-cast goes through a handler that can
succeed: everything except `struct` (not a key of the constants table, so
the generic handler raises `KeyError`) and arrays with a non-primitive value
type (rejected by the array handler). -/
def noopCastSupported : DType → Bool
  | .struct => false
  | .array value_type => (ibisTypeToDaskType value_type).isSome
  | _ => true

/-- A series is well typed for a logical type when its native dtype is the
one the Type Coercion Layer maps from that type (the Materialized Value
invariant of the spec's data model). -/
def seriesWellTyped (t : DType) (s : DSeries) : Bool :=
  s.dtype = ibis_dtype_to_dask t

/-- The runtime class of the first operand of a series-level `Cast`
registration: a plain columnar series (`dd.Series`) or a grouped series
(`SeriesGroupBy`).  Neither is a subclass of the other. -/
inductive OperandClass where
  | series
  | seriesGroupBy
deriving DecidableEq, Repr

/-- The target-dtype patterns used by the `Cast` registrations of
generic.py: the base class `dt.DataType` (matches every logical type), or
the leaf classes `dt.Timestamp`, `dt.Date`, `dt.Array`. -/
inductive DTypePat where
  | dataTypePat
  | timestampPat
  | datePat
  | arrayPat
deriving DecidableEq, Repr

/-- Whether a dtype pattern matches a runtime logical type (subclass
matching: `dt.DataType` matches everything). -/
def dtypePatMatches : DTypePat → DType → Bool
  | .dataTypePat, _ => true
  | .timestampPat, t => match t with | .timestamp _ => true | _ => false
  | .datePat, t => match t with | .date => true | _ => false
  | .arrayPat, t => match t with | .array _ => true | _ => false

/-- Specificity rank of a dtype pattern: an exact (leaf-class) match is more
specific (rank 0) than the `dt.DataType` wildcard (rank 1). -/
def dtypePatRank : DTypePat → Nat
  | .dataTypePat => 1
  | _ => 0

/-- One registration of the `execute_node` registry for `ops.Cast` with a
series-like first operand: the operand class pattern, the target-dtype
pattern, and a tag naming the registered handler. -/
structure CastSig (H : Type) where
  cls : OperandClass
  pat : DTypePat
  handler : H
deriving DecidableEq, Repr

/-- Modelled from the spec: the resolver of the multiple-dispatch registry
(`ibis.dask.dispatch.execute_node`, built on `multipledispatch`, which is
not among the sources).  Per spec section 4.2, `resolve` selects the most
specific registered signature whose patterns all match the runtime types
component-wise, exact-type match before wildcard match, ties broken by
registration order with later registrations shadowing earlier ones.
Operand classes match exactly (`SeriesGroupBy` is not a `dd.Series`). -/
def resolve {H : Type} (regs : List (CastSig H)) (cls : OperandClass)
    (t : DType) : Option H :=
  (regs.foldl
    (fun best sig =>
      if sig.cls = cls ∧ dtypePatMatches sig.pat t then
        match best with
        | none => some sig
        | some b =>
            if dtypePatRank sig.pat ≤ dtypePatRank b.pat then some sig
            else some b
      else best)
    none).map (fun sig => sig.handler)

/-- Tags for the series-level `Cast` handlers of generic.py. -/
inductive CastHandlerTag where
  | groupByH
  | genericH
  | arrayH
  | timestampH
  | dateH
deriving DecidableEq, Repr

/-- The series-level `Cast` registrations of generic.py, in source order:
`(Cast, SeriesGroupBy, dt.DataType)` at line 92, `(Cast, dd.Series,
dt.DataType)` at line 98, `(Cast, dd.Series, dt.Array)` at line 103,
`(Cast, dd.Series, dt.Timestamp)` at line 117 and `(Cast, dd.Series,
dt.Date)` at line 147. -/
def castSeriesRegistry : List (CastSig CastHandlerTag) :=
  [⟨.seriesGroupBy, .dataTypePat, .groupByH⟩,
   ⟨.series, .dataTypePat, .genericH⟩,
   ⟨.series, .arrayPat, .arrayH⟩,
   ⟨.series, .timestampPat, .timestampH⟩,
   ⟨.series, .datePat, .dateH⟩]

/-- A Python float value: a finite value modelled as an exact rational
(IEEE-754 rounding and overflow are not modelled — a finite decimal
literal denotes its exact rational value), a signed infinity, or NaN. -/
inductive PyFloat where
  | finite (q : Rat)
  | inf (neg : Bool)
  | nan
deriving DecidableEq, Repr

/-- A Python-level scalar value as handled by the literal and scalar-cast
rules: `int` (arbitrary precision, exactly `Int`), `bool`, `float`, `str`
or a `pandas.Timedelta`. -/
inductive PyVal where
  | intv (n : Int)
  | boolv (b : Bool)
  | floatv (f : PyFloat)
  | strv (s : String)
  | timedeltav (n : Int) (unit : String)
deriving DecidableEq, Repr

/-- Failures of the Python coercions used by the literal rules:
`ValueError`, `TypeError` and `OverflowError`. -/
inductive LitErr where
  | valueError
  | typeError
  | overflowError
deriving DecidableEq, Repr

/-- Truncation toward zero, the behavior of Python's `int()` on finite
floats (`int(-3.5) = -3`, `int(3.5) = 3`).  The numerator is divided by
the positive denominator as a nonnegative number — where floor and
truncation agree — and the sign is reapplied afterwards. -/
def ratTruncInt (q : Rat) : Int :=
  if 0 ≤ q.num then q.num / (q.den : Int) else -((-q.num) / (q.den : Int))

/-- One run of ASCII decimal digits in which single underscores may
separate digits (PEP 515): returns the value and the number of digits, or
`none` when the run is empty, starts or ends with an underscore, has two
consecutive underscores, or contains a non-digit. -/
def digitsCore : Nat → Nat → List Char → Option (Nat × Nat)
  | acc, cnt, [] => some (acc, cnt)
  | acc, cnt, '_' :: c :: rest =>
      if c.isDigit then digitsCore (acc * 10 + (c.toNat - 48)) (cnt + 1) rest
      else none
  | _, _, ['_'] => none
  | acc, cnt, c :: rest =>
      if c.isDigit then digitsCore (acc * 10 + (c.toNat - 48)) (cnt + 1) rest
      else none

/-- A nonempty underscore-separated digit run (see `digitsCore`). -/
def digitsWithUnderscores : List Char → Option (Nat × Nat)
  | c :: rest =>
      if c.isDigit then digitsCore (c.toNat - 48) 1 rest else none
  | [] => none

/-- A possibly empty underscore-separated digit run. -/
def digitsOrEmpty : List Char → Option (Nat × Nat)
  | [] => some (0, 0)
  | cs => digitsWithUnderscores cs

/-- Drop leading whitespace characters. -/
def stripLeadingWs : List Char → List Char
  | c :: rest => if c.isWhitespace then stripLeadingWs rest else c :: rest
  | [] => []

/-- Strip leading and trailing whitespace, as Python's numeric-string
coercions do before parsing. -/
def stripWs (cs : List Char) : List Char :=
  (stripLeadingWs (stripLeadingWs cs).reverse).reverse

/-- An optional leading sign: returns whether the value is negated and the
remaining characters. -/
def splitSign : List Char → (Bool × List Char)
  | '-' :: rest => (true, rest)
  | '+' :: rest => (false, rest)
  | cs => (false, cs)

/-- Split at the first exponent marker `e`/`E`, if any. -/
def splitAtExp : List Char → (List Char × Option (List Char))
  | [] => ([], none)
  | c :: rest =>
      if c = 'e' ∨ c = 'E' then ([], some rest)
      else
        let p := splitAtExp rest
        (c :: p.1, p.2)

/-- Split at the first decimal point, if any. -/
def splitAtDot : List Char → (List Char × Option (List Char))
  | [] => ([], none)
  | c :: rest =>
      if c = '.' then ([], some rest)
      else
        let p := splitAtDot rest
        (c :: p.1, p.2)

/-- Python's `int(str)` in base 10: whitespace stripped, an optional sign
immediately followed by a nonempty underscore-separated ASCII digit run;
anything else (including fractional strings) raises `ValueError`.
Non-ASCII digits are outside the modelled string domain. -/
def pyIntOfString (s : String) : Option Int :=
  let p := splitSign (stripWs s.data)
  match digitsWithUnderscores p.2 with
  | some (v, _) => some (if p.1 then -(v : Int) else (v : Int))
  | none => none

/-- The decimal part of Python's `float(str)` grammar, after sign
splitting: `digits [. [digits]] | . digits`, each run underscore-separated,
with an optional `e`/`E` exponent whose own sign and digit run follow the
same rules; at least one mantissa digit is required.  The denoted value is
the exact rational. -/
def parseDecimal (cs : List Char) : Option Rat :=
  let me := splitAtExp cs
  let mdp := splitAtDot me.1
  match digitsOrEmpty mdp.1,
      (match mdp.2 with
       | none => some ((0 : Nat), (0 : Nat))
       | some f => digitsOrEmpty f) with
  | some (iv, icnt), some (fv, fcnt) =>
      if icnt + fcnt = 0 then none
      else
        let base : Rat := (iv : Rat) + (fv : Rat) / ((10 : Rat) ^ fcnt)
        match me.2 with
        | none => some base
        | some ex =>
            let pe := splitSign ex
            match digitsWithUnderscores pe.2 with
            | some (ev, _) =>
                some (if pe.1 then base / ((10 : Rat) ^ ev)
                      else base * ((10 : Rat) ^ ev))
            | none => none
  | _, _ => none

/-- Python's `float(str)`: whitespace stripped, an optional sign, then
either a decimal literal (see `parseDecimal`), or the special spellings
`inf`/`infinity`/`nan` in any letter case; anything else raises
`ValueError`. -/
def pyFloatOfString (s : String) : Option PyFloat :=
  let p := splitSign (stripWs s.data)
  let low := p.2.map Char.toLower
  if low = ['i', 'n', 'f'] ∨ low = ['i', 'n', 'f', 'i', 'n', 'i', 't', 'y']
  then some (.inf p.1)
  else if low = ['n', 'a', 'n'] then some .nan
  else (parseDecimal p.2).map (fun q => .finite (if p.1 then -q else q))

/-- Python's `int(value)`: booleans coerce to 0/1, finite floats truncate
toward zero, infinities raise `OverflowError` and NaN `ValueError`,
strings parse per `pyIntOfString` (raising `ValueError` otherwise), and
timedeltas raise `TypeError`. -/
def pyInt : PyVal → Except LitErr PyVal
  | .intv n => .ok (.intv n)
  | .boolv b => .ok (.intv (if b then 1 else 0))
  | .floatv (.finite q) => .ok (.intv (ratTruncInt q))
  | .floatv (.inf _) => .error .overflowError
  | .floatv .nan => .error .valueError
  | .strv s =>
      match pyIntOfString s with
      | some n => .ok (.intv n)
      | none => .error .valueError
  | .timedeltav _ _ => .error .typeError

/-- Python's `bool(value)`: zero, the empty string and the zero timedelta
are falsy; nonzero numbers, infinities, NaN and nonempty strings are
truthy. -/
def pyBool : PyVal → PyVal
  | .intv n => .boolv (n ≠ 0)
  | .boolv b => .boolv b
  | .floatv (.finite q) => .boolv (q ≠ 0)
  | .floatv _ => .boolv true
  | .strv s => .boolv (s ≠ "")
  | .timedeltav n _ => .boolv (n ≠ 0)

/-- Python's `float(value)`: booleans coerce to 0.0/1.0, integers widen,
floats pass through, strings parse per `pyFloatOfString` (raising
`ValueError` otherwise), and timedeltas raise `TypeError`. -/
def pyFloat : PyVal → Except LitErr PyVal
  | .intv n => .ok (.floatv (.finite n))
  | .boolv b => .ok (.floatv (.finite (if b then 1 else 0)))
  | .floatv f => .ok (.floatv f)
  | .strv s =>
      match pyFloatOfString s with
      | some f => .ok (.floatv f)
      | none => .error .valueError
  | .timedeltav _ _ => .error .typeError

/-- Whether a logical type is in the `dt.Integer` hierarchy. -/
def isIntegerT : DType → Bool
  | .int8 | .int16 | .int32 | .int64
  | .uint8 | .uint16 | .uint32 | .uint64 => true
  | _ => false

/-- Whether a logical type is `dt.Boolean`. -/
def isBooleanT : DType → Bool
  | .boolean => true
  | _ => false

/-- Whether a logical type is in the `dt.Floating` hierarchy. -/
def isFloatingT : DType → Bool
  | .float16 | .float32 | .float64 => true
  | _ => false

/-- The `execute_literal` dispatch of generic.py (lines 51-84), resolved by
the class of the literal's declared datatype: `dt.Integer` literals return
`int(value)` (line 60), `dt.Boolean` literals `bool(value)` (line 65),
`dt.Floating` literals `float(value)` (line 70), `dt.Interval` literals
with a timedelta, string or integer value build a `Timedelta(value, unit)`
(line 80; the string form of `Timedelta` parsing is modelled coarsely — no
claim depends on it), and the generic `(ops.Literal, object, dt.DataType)`
fallback (line 51) returns the stored value unchanged. -/
def execute_literal (value : PyVal) (datatype : DType) :
    Except LitErr PyVal :=
  if isIntegerT datatype then pyInt value
  else if isBooleanT datatype then .ok (pyBool value)
  else if isFloatingT datatype then pyFloat value
  else
    match datatype with
    | .interval u =>
        match value with
        | .intv n => .ok (.timedeltav n u)
        | .timedeltav n _ => .ok (.timedeltav n u)
        | .strv s =>
            match s.toInt? with
            | some n => .ok (.timedeltav n u)
            | none => .error .valueError
        | v => .ok v
    | _ => .ok value

/-- Failures of the scalar `Cast` handlers of generic.py. -/
inductive ScalarCastErr where
  | boolToTimestampError
  | boolToIntervalError
  | literalCastError
deriving DecidableEq, Repr

/-- Modelled from the spec: the `constants.IBIS_TO_PYTHON_LITERAL_TYPES`
mapping used by `execute_cast_string_literal` (generic.py lines 369-378;
the constants module is not among the sources).  Per the spec's Type
Coercion Layer, each primitive logical type converts through the native
Python constructor; types without an entry raise `TypeError`, and a
failing constructor call propagates its own error. -/
def ibisToPythonLiteral (type : DType) (data : PyVal) :
    Except ScalarCastErr PyVal :=
  if isIntegerT type then
    match pyInt data with
    | .ok v => .ok v
    | .error _ => .error .literalCastError
  else if isBooleanT type then .ok (pyBool data)
  else if isFloatingT type then
    match pyFloat data with
    | .ok v => .ok v
    | .error _ => .error .literalCastError
  else
    match type with
    | .string =>
        .ok (.strv (match data with
          | .strv s => s
          | .intv n => toString n
          | .boolv b => if b then "True" else "False"
          | .floatv (.finite q) => toString q
          | .floatv (.inf neg) => if neg then "-inf" else "inf"
          | .floatv .nan => "nan"
          | .timedeltav n u => toString n ++ u))
    | _ => .error .literalCastError

/-- The `ops.Cast` dispatch for a boolean scalar operand: the registrations
`(Cast, (np.bool_, bool), dt.Timestamp)` (generic.py line 321) and `(Cast,
(np.bool_, bool), dt.Interval)` (line 331) are strictly more specific than
the generic `(Cast, fixed_width_types + (str,), dt.DataType)` registration
(line 369), so a timestamp or interval target always raises, and every
other target goes through the generic literal-cast handler. -/
def cast_bool_scalar (data : Bool) (type : DType) :
    Except ScalarCastErr PyVal :=
  match type with
  | .timestamp _ => .error .boolToTimestampError
  | .interval _ => .error .boolToIntervalError
  | t => ibisToPythonLiteral t (.boolv data)

/-- A `dask.dataframe.DataFrame`: column names, a row index, and rows of
integer cells positionally aligned with the column names (integer payloads
stand in for the timestamps of the designated time column). -/
structure DaskDataFrame where
  columns : List String
  index : List Nat
  rows : List (List Int)
deriving DecidableEq, Repr

/-- The designated time-column name `TIME_COL` from `ibis.expr.timecontext`
(imported by generic.py line 33). -/
def TIME_COL : String := "time"

/-- The error raised by the table-materialization leaf. -/
inductive TableErr where
  | missingTimeColumn (table : String)
deriving DecidableEq, Repr

/-- Position of a column in a frame, `none` when absent. -/
def colIndex (df : DaskDataFrame) (c : String) : Option Nat :=
  df.columns.indexOf? c

/-- `execute_database_table_client` (generic.py lines 942-959): look the
frame up in the client dictionary; with no time context return it
unchanged; with a time context `(begin, end)` require the designated time
column (raising `IbisError` otherwise), keep the rows whose time value `t`
satisfies `begin <= t <= end` (`Series.between` is inclusive on both ends),
and reset the row index (`reset_index(drop=True)`). -/
def execute_database_table_client (name : String) (df : DaskDataFrame)
    (timecontext : Option (Int × Int)) : Except TableErr DaskDataFrame :=
  match timecontext with
  | none => .ok df
  | some (begin_, end_) =>
      match colIndex df TIME_COL with
      | none => .error (.missingTimeColumn name)
      | some i =>
          let kept := df.rows.filter
            (fun r => decide (begin_ ≤ r.getD i 0) && decide (r.getD i 0 ≤ end_))
          .ok ⟨df.columns, List.range kept.length, kept⟩

/-- A row of the input table of an aggregation. -/
abbrev Row := List Int

/-- An `ops.Aggregation` node as consumed by
`execute_aggregation_dataframe`: metric expressions (each reducing a
collection of rows to a value), predicate filters, grouping-key
expressions, having filters (each reducing a group's rows to a boolean) and
sort keys (only their presence matters: sorting raises
`NotImplementedError`). -/
structure AggNode where
  metrics : List (List Row → Int)
  predicates : List (Row → Bool)
  by_ : List (Row → Int)
  having : List (List Row → Bool)
  sort_keys : List Unit

/-- Failures of `execute_aggregation_dataframe`: the `assert op.metrics`
guard (line 405), the sort-keys `NotImplementedError` (line 407), the
having-without-group-by `ValueError` (line 466: "Filtering out aggregation
values is not allowed without at least one grouping key"), and the internal
length assertion (line 480). -/
inductive AggErr where
  | assertNoMetrics
  | sortNotImplemented
  | havingWithoutGroupBy
  | assertLengthMismatch
deriving DecidableEq, Repr

/-- One row of an aggregation result: the grouping-key values followed by
one value per metric. -/
structure AggRow where
  key : List Int
  vals : List Int
deriving DecidableEq, Repr

/-- The conjunction (`functools.reduce(operator.and_, ...)`) of a list of
boolean predicates. -/
def conjPredicates (ps : List (Row → Bool)) (r : Row) : Bool :=
  ps.all (fun p => p r)

/-- Deduplication keeping the first occurrence of each element. -/
def dedupFirst {α : Type} [DecidableEq α] (l : List α) : List α :=
  l.foldl (fun acc a => if a ∈ acc then acc else acc ++ [a]) []

/-- The input table after the predicate filter of
`execute_aggregation_dataframe` (lines 412-421): when predicates are
present the rows are filtered by their conjunction, before any grouping. -/
def aggFiltered (op : AggNode) (data : List Row) : List Row :=
  if op.predicates.isEmpty then data
  else data.filter (conjPredicates op.predicates)

/-- The grouped source of `execute_aggregation_dataframe` (lines 425-444):
with grouping keys, the filtered rows partitioned by their key tuple (in
first-occurrence order); without grouping keys a single partition holding
everything. -/
def aggGroups (op : AggNode) (data : List Row) : List (List Int × List Row) :=
  let filtered := aggFiltered op data
  if op.by_.isEmpty then [([], filtered)]
  else
    (dedupFirst (filtered.map (fun r => op.by_.map (fun f => f r)))).map
      (fun k => (k, filtered.filter (fun r => decide (op.by_.map (fun f => f r) = k))))

/-- The aggregated result before the having filter (lines 449-461): one row
per partition, carrying the key and the metric values computed over that
partition's rows. -/
def aggResultRows (op : AggNode) (data : List Row) : List AggRow :=
  (aggGroups op data).map (fun g => ⟨g.1, op.metrics.map (fun m => m g.2)⟩)

/-- The combined having predicate (lines 472-479): the conjunction of the
having filters, evaluated per partition under the grouped scope, giving one
boolean per aggregated row. -/
def havingMask (op : AggNode) (data : List Row) : List Bool :=
  (aggGroups op data).map (fun g => op.having.all (fun h => h g.2))

/-- `result.loc[predicate.values]`: keep the result rows whose mask entry is
true (boolean-mask indexing). -/
def maskFilter : List AggRow → List Bool → List AggRow
  | r :: rs, b :: bs => if b then r :: maskFilter rs bs else maskFilter rs bs
  | _, _ => []

/-- `execute_aggregation_dataframe` (generic.py lines 401-484): assert that
metrics exist, reject sort keys, filter by the predicate conjunction, group,
compute the metrics per group, then apply the having filter — rejecting a
having clause without grouping keys, and asserting that the combined having
predicate's length equals the pre-having result's row count. -/
def execute_aggregation (op : AggNode) (data : List Row) :
    Except AggErr (List AggRow) :=
  if op.metrics.isEmpty then .error .assertNoMetrics
  else if op.sort_keys.isEmpty = false then .error .sortNotImplemented
  else if op.having.isEmpty = false then
    if op.by_.isEmpty then .error .havingWithoutGroupBy
    else if (havingMask op data).length = (aggResultRows op data).length then
      .ok (maskFilter (aggResultRows op data) (havingMask op data))
    else .error .assertLengthMismatch
  else .ok (aggResultRows op data)

/-- An operand of a row-wise reduction (`Greatest`/`Least`/`Coalesce`): a
scalar cell or an array of cells.  Note that Python strings are `Sized`, so
a string scalar participates in the size computation by its character
length. -/
inductive RVal where
  | scalar (c : Cell)
  | arr (cells : List Cell)
deriving DecidableEq, Repr

/-- `len(x)` for operands that are `collections.abc.Sized`: arrays, string
scalars and list scalars; `none` for unsized scalars. -/
def sizedLen : RVal → Option Nat
  | .arr cs => some cs.length
  | .scalar (.sv s) => some s.length
  | .scalar (.arrc xs) => some xs.length
  | .scalar _ => none

/-- `promote_to_sequence` (generic.py lines 1034-1036): a series contributes
its values, anything else is repeated whole to the final size
(`np.repeat(obj, length)`). -/
def promote_to_sequence (length : Nat) (obj : RVal) : List Cell :=
  match obj with
  | .arr cs => cs
  | .scalar c => List.replicate length c

/-- The scalar payload of an unsized operand (the scalar branch of
`compute_row_reduction` only ever sees unsized scalars). -/
def scalarCellOf : RVal → Cell
  | .scalar c => c
  | .arr _ => .nullc

/-- Failures of the row-wise reductions: the `ValueError` raised by the
one-element tuple unpacking `(final_size,) = final_sizes` when the sized
operands exhibit more than one distinct length, and the `ValueError` raised
by taking the truth value of a multi-element array. -/
inductive RowErr where
  | shapeMismatch
  | ambiguousTruthValue
deriving DecidableEq, Repr

/-- `pandas.isnull` on a cell. -/
def isnullCell : Cell → Bool
  | .nullc => true
  | _ => false

/-- `dd.Series(raw).squeeze()`: a length-one column collapses to its scalar,
anything else stays a column. -/
def squeeze : List Cell → RVal
  | [c] => .scalar c
  | cs => .arr cs

/-- `compute_row_reduction` (generic.py lines 1039-1045): collect the
distinct lengths of the `Sized` operands; with none, apply the reduction
directly to the scalars; with exactly one, promote every operand to that
length and apply the sequence form of the reduction, squeezing the raw
result; with more than one distinct length, the unpacking
`(final_size,) = final_sizes` raises `ValueError`. -/
def compute_row_reduction (fscalar : List Cell → Cell)
    (fseq : Nat → List (List Cell) → Except RowErr (List Cell))
    (value : List RVal) : Except RowErr RVal :=
  match dedupFirst (value.filterMap sizedLen) with
  | [] => .ok (.scalar (fscalar (value.map scalarCellOf)))
  | [final_size] =>
      (fseq final_size (value.map (promote_to_sequence final_size))).map squeeze
  | _ => .error .shapeMismatch

/-- `np.maximum` on two cells (integer cells compare by value; other
combinations are not exercised by any claim and keep the left operand). -/
def cellMax : Cell → Cell → Cell
  | .iv a, .iv b => .iv (max a b)
  | a, _ => a

/-- `np.minimum` on two cells. -/
def cellMin : Cell → Cell → Cell
  | .iv a, .iv b => .iv (min a b)
  | a, _ => a

/-- `np.maximum.reduce`/`np.minimum.reduce` over a list of scalar cells. -/
def cellReduce (f : Cell → Cell → Cell) : List Cell → Cell
  | [] => .nullc
  | c :: rest => rest.foldl f c

/-- `np.maximum.reduce(seqs, axis=0)` and its `minimum` counterpart:
reduce across the operands position by position. -/
def seqColumnReduce (f : Cell → Cell → Cell) (final_size : Nat)
    (seqs : List (List Cell)) : Except RowErr (List Cell) :=
  .ok ((List.range final_size).map
    (fun i => cellReduce f (seqs.map (fun s => s.getD i .nullc))))

/-- `coalesce` (generic.py lines 1030-1031) on scalar operands:
`reduce(lambda x, y: x if not isnull(x) else y, values)`. -/
def coalesce_cells : List Cell → Cell
  | [] => .nullc
  | c :: rest => rest.foldl (fun x y => if isnullCell x then y else x) c

/-- `not isnull(x)` when `x` is an array: the truth value of a one-element
boolean array is that element; a multi-element array raises `ValueError`
("the truth value of an array with more than one element is ambiguous");
the empty array is falsy, so its negation is truthy. -/
def notIsnullSeq : List Cell → Except RowErr Bool
  | [] => .ok true
  | [c] => .ok (!(isnullCell c))
  | _ => .error .ambiguousTruthValue

/-- `coalesce` applied to promoted sequences: the same
`reduce(lambda x, y: x if not isnull(x) else y, values)`, but each `x` is
now a whole array, whose truth value is taken as such. -/
def coalesce_seq (_final_size : Nat) (seqs : List (List Cell)) :
    Except RowErr (List Cell) :=
  match seqs with
  | [] => .ok []
  | x :: rest =>
      rest.foldlM
        (fun acc y => (notIsnullSeq acc).map (fun b => if b then acc else y))
        x

/-- `execute_node_greatest_list` (generic.py lines 1048-1050):
`compute_row_reduction(np.maximum.reduce, value, axis=0)`. -/
def execute_node_greatest_list (value : List RVal) : Except RowErr RVal :=
  compute_row_reduction (cellReduce cellMax) (seqColumnReduce cellMax) value

/-- `execute_node_least_list` (generic.py lines 1053-1055). -/
def execute_node_least_list (value : List RVal) : Except RowErr RVal :=
  compute_row_reduction (cellReduce cellMin) (seqColumnReduce cellMin) value

/-- `execute_node_coalesce` (generic.py lines 1058-1061):
`compute_row_reduction(coalesce, values)` — no `axis` keyword, so the
reduction receives the promoted arrays whole. -/
def execute_node_coalesce (values : List RVal) : Except RowErr RVal :=
  compute_row_reduction coalesce_cells coalesce_seq values

/-- The condition operand of an `ops.Where`: a boolean scalar or a boolean
series. -/
inductive WCond where
  | scalarB (b : Bool)
  | seriesB (bs : List Bool)
deriving DecidableEq, Repr

/-- A branch operand of an `ops.Where`: a scalar or a series of values. -/
inductive WOperand where
  | scalar (n : Int)
  | series (xs : List Int)
deriving DecidableEq, Repr

/-- `NoImplementationFound`: the registry has no signature matching the
operand types of a node. -/
inductive WhereErr where
  | noImplementationFound
deriving DecidableEq, Repr

/-- `true.where(cond, other=false)`: keep the true-branch value where the
condition holds, otherwise the false operand's value (a scalar `other` is
broadcast by pandas). -/
def series_where (ts : List Int) (cond : List Bool) (other : WOperand) :
    List Int :=
  match other with
  | .scalar f => (ts.zip cond).map (fun p => if p.2 then p.1 else f)
  | .series fs => ((ts.zip cond).zip fs).map (fun p => if p.1.2 then p.1.1 else p.2)

/-- The `ops.Where` dispatch of generic.py (lines 887-939), one case per
registered signature: `(Series, Series, Series)` and `(Series, Series,
scalar)` use `true.where(cond, other=false)` (line 889); `(Series, scalar,
scalar)` repeats the true scalar to the condition's length first (line 897);
`(scalar, Series, Series)` returns the selected branch directly (line 909);
`(scalar, scalar, scalar)` returns the selected scalar (line 917); `(scalar,
Series, scalar)` and `(scalar, scalar, Series)` broadcast the scalar branch
only when it is the selected one (lines 924-939).  No signature is
registered for `(Series, scalar, Series)`, so that combination fails with
`NoImplementationFound`. -/
def execute_node_where (cond : WCond) (true_ : WOperand) (false_ : WOperand) :
    Except WhereErr WOperand :=
  match cond, true_, false_ with
  | .seriesB bs, .series ts, f => .ok (.series (series_where ts bs f))
  | .seriesB bs, .scalar t, .scalar f =>
      .ok (.series (series_where (List.replicate bs.length t) bs (.scalar f)))
  | .seriesB _, .scalar _, .series _ => .error .noImplementationFound
  | .scalarB b, .series ts, .series fs =>
      .ok (if b then .series ts else .series fs)
  | .scalarB b, .scalar t, .scalar f =>
      .ok (if b then .scalar t else .scalar f)
  | .scalarB b, .series ts, .scalar f =>
      .ok (if b then .series ts else .series (List.replicate ts.length f))
  | .scalarB b, .scalar t, .series fs =>
      .ok (if b then .series (List.replicate fs.length t) else .series fs)

/-- The set of logical types for which the logical-to-native-to-logical
round trip returns the original type, computed by inspection of the two
tables above. -/
def roundTripsExactly : DType → Bool
  | .boolean => true
  | .int8 => true
  | .int16 => true
  | .int32 => true
  | .int64 => true
  | .uint8 => true
  | .uint16 => true
  | .uint32 => true
  | .uint64 => true
  | .float32 => true
  | .float64 => true
  | .timestamp _ => true
  | .interval u => if u = "ns" then true else false
  | .category => true
  | _ => false

theorem mem_foldl_dedup {α : Type} [DecidableEq α] (l : List α) (acc : List α)
    (a : α) :
    a ∈ l.foldl (fun acc x => if x ∈ acc then acc else acc ++ [x]) acc ↔
      a ∈ acc ∨ a ∈ l := by
  induction l generalizing acc with
  | nil => simp
  | cons b l ih =>
      simp only [List.foldl_cons]
      rw [ih]
      by_cases hb : b ∈ acc
      · simp only [if_pos hb, List.mem_cons]
        constructor
        · rintro (h | h)
          · exact .inl h
          · exact .inr (.inr h)
        · rintro (h | rfl | h)
          · exact .inl h
          · exact .inl hb
          · exact .inr h
      · simp only [if_neg hb, List.mem_append, List.mem_cons,
          List.not_mem_nil, or_false]
        constructor
        · rintro ((h | rfl) | h)
          · exact .inl h
          · exact .inr (.inl rfl)
          · exact .inr (.inr h)
        · rintro (h | rfl | h)
          · exact .inl (.inl h)
          · exact .inl (.inr rfl)
          · exact .inr h

theorem mem_dedupFirst {α : Type} [DecidableEq α] (l : List α) (a : α) :
    a ∈ dedupFirst l ↔ a ∈ l := by
  simpa [dedupFirst] using mem_foldl_dedup l [] a

theorem filter_conjPredicates_nil (l : List Row) :
    l.filter (conjPredicates []) = l := by
  induction l with
  | nil => rfl
  | cons r rs ih => simp [List.filter_cons, conjPredicates, ih]

theorem npCast_eq_id (d : NpDtype) : npCast d = fun n => n := rfl

theorem castArrayCell_id (d : NpDtype) (c : Cell) : castArrayCell d c = c := by
  cases c <;> simp [castArrayCell, npCast_eq_id, List.map_id']

theorem map_castArrayCell (d : NpDtype) (l : List Cell) :
    l.map (castArrayCell d) = l := by
  induction l with
  | nil => rfl
  | cons c cs ih => simp [castArrayCell_id, ih]

theorem maskFilter_length_count :
    ∀ (rows : List AggRow) (mask : List Bool), rows.length = mask.length →
      (maskFilter rows mask).length = mask.count true
  | [], [], _ => by simp [maskFilter]
  | [], _ :: _, h => by simp at h
  | _ :: _, [], h => by simp at h
  | r :: rs, b :: bs, h => by
      have h' : rs.length = bs.length := by
        simpa using h
      cases b <;>
        simp [maskFilter, maskFilter_length_count rs bs h', List.count_cons]

theorem havingMask_length (op : AggNode) (data : List Row) :
    (havingMask op data).length = (aggResultRows op data).length := by
  simp [havingMask, aggResultRows]

/-- C1: for the `Cast` operation with a grouped series operand, dispatch
resolution always and deterministically selects the grouped-specific
handler registered at `(Cast, SeriesGroupBy, dt.DataType)` — never the
generic `(Cast, dd.Series, dt.DataType)` handler — for every target logical
type; and the grouped handler casts the underlying series with the generic
handler and re-groups the result by the same groupings. -/
theorem cast_dispatch_grouped_selects_group_by_handler (t : DType)
    (data : SeriesGroupBy) :
    resolve castSeriesRegistry .seriesGroupBy t = some .groupByH
    ∧ resolve castSeriesRegistry .seriesGroupBy t ≠ some .genericH
    ∧ ∀ s', execute_cast_series_group_by data t = .ok s' →
        s'.groupings = data.groupings
        ∧ execute_cast_series_generic data.obj t = .ok s'.obj := by
  refine ⟨rfl, ?_, ?_⟩
  · intro h
    have h' : some CastHandlerTag.groupByH = some CastHandlerTag.genericH :=
      (rfl : resolve castSeriesRegistry .seriesGroupBy t
        = some .groupByH).symm.trans h
    exact absurd (Option.some.inj h') (by decide)
  · intro s' h
    unfold execute_cast_series_group_by at h
    cases hg : execute_cast_series_generic data.obj t with
    | ok r =>
        rw [hg] at h
        simp only [Except.map] at h
        have hs : s' = ⟨r, data.groupings⟩ := (Except.ok.inj h).symm
        subst hs
        exact ⟨rfl, rfl⟩
    | error e =>
        rw [hg] at h
        simp only [Except.map] at h
        exact absurd h (fun hc => Except.noConfusion hc)

/-- C1 witness: resolving a grouped `int64` series cast to `float64` picks
the grouped handler, whose output keeps the original groupings and whose
underlying series is the generic cast of the ungrouped series. -/
theorem cast_dispatch_grouped_selects_group_by_handler_witness :
    (⟨⟨NpDtype.float64, [Cell.iv 1]⟩, ["g"]⟩ : SeriesGroupBy).groupings
      = (⟨⟨NpDtype.int64, [Cell.iv 1]⟩, ["g"]⟩ : SeriesGroupBy).groupings
    ∧ execute_cast_series_generic ⟨NpDtype.int64, [Cell.iv 1]⟩ DType.float64
      = .ok (⟨⟨NpDtype.float64, [Cell.iv 1]⟩, ["g"]⟩ : SeriesGroupBy).obj :=
  (cast_dispatch_grouped_selects_group_by_handler DType.float64
    ⟨⟨NpDtype.int64, [Cell.iv 1]⟩, ["g"]⟩).2.2
    ⟨⟨NpDtype.float64, [Cell.iv 1]⟩, ["g"]⟩ rfl

/-- C4: the logical-to-native-to-logical round trip
`dt.dtype(ibis_dtype_to_dask(T))` returns `T` exactly for booleans, the
signed and unsigned integer widths, `float32`, `float64`, timestamps (with
the timezone preserved), `interval('ns')` and `category`; every other
logical type either comes back as a different type (`date` as a naive
timestamp, `time` as `interval('ns')`) or has no inverse mapping at all
(the object-dtype fallback and non-`ns` interval units raise
`TypeError`). -/
theorem dtype_round_trip_characterization (t : DType) :
    (dt_dtype (ibis_dtype_to_dask t) = .ok t) ↔ roundTripsExactly t = true := by
  cases t with
  | timestamp tz =>
      cases tz with
      | none => decide
      | some z =>
          simp [dt_dtype, ibis_dtype_to_dask, roundTripsExactly]
  | interval u =>
      by_cases hu : u = "ns"
      · subst hu; decide
      · simp [dt_dtype, ibis_dtype_to_dask, from_numpy_dtype, _numpy_dtypes,
          roundTripsExactly, hu]
  | array v =>
      simp [dt_dtype, ibis_dtype_to_dask, _ibis_dtypes, from_numpy_dtype,
        _numpy_dtypes, roundTripsExactly]
  | boolean => decide
  | int8 => decide
  | int16 => decide
  | int32 => decide
  | int64 => decide
  | uint8 => decide
  | uint16 => decide
  | uint32 => decide
  | uint64 => decide
  | float16 => decide
  | float32 => decide
  | float64 => decide
  | string => decide
  | binary => decide
  | null => decide
  | decimal => decide
  | date => decide
  | time => decide
  | category => decide
  | struct => decide

/-- C4 counterexample: `date` does not round trip — its native dtype is
`datetime64[ns]`, whose inverse mapping is the timezone-naive timestamp,
not `date`; no timezone or interval-unit metadata is involved. -/
theorem dtype_round_trip_counterexample :
    dt_dtype (ibis_dtype_to_dask DType.date) = .ok (DType.timestamp none)
    ∧ dt_dtype (ibis_dtype_to_dask DType.date) ≠ .ok DType.date := by
  decide

/-- C9: casting a boolean scalar to any timestamp type or any interval type
always fails with the descriptive `TypeError` directing the caller to cast
through `int64` first, for both boolean values; no such cast returns a
value. -/
theorem cast_bool_to_timestamp_or_interval_fails (b : Bool)
    (tz : Option String) (u : String) :
    cast_bool_scalar b (.timestamp tz) = .error .boolToTimestampError
    ∧ cast_bool_scalar b (.interval u) = .error .boolToIntervalError :=
  ⟨rfl, rfl⟩

/-- C10: evaluating a `Literal` node coerces the stored value to the native
type of its declared logical type: an integer-typed literal returns
`int(value)` (so `True` typed as an integer evaluates to `1`), a
boolean-typed literal returns `bool(value)` and a floating-typed literal
returns `float(value)`. -/
theorem execute_literal_coerces (value : PyVal) (datatype : DType) :
    (isIntegerT datatype = true → execute_literal value datatype = pyInt value)
    ∧ (isBooleanT datatype = true →
        execute_literal value datatype = .ok (pyBool value))
    ∧ (isFloatingT datatype = true →
        execute_literal value datatype = pyFloat value)
    ∧ execute_literal (.boolv true) DType.int64 = .ok (.intv 1) := by
  refine ⟨?_, ?_, ?_, rfl⟩
  · intro h; simp [execute_literal, h]
  · intro h
    cases datatype <;> simp_all [execute_literal, isIntegerT, isBooleanT]
  · intro h
    cases datatype <;>
      simp_all [execute_literal, isIntegerT, isBooleanT, isFloatingT]

/-- C10 witness: the boolean `True` stored in an `int64`-typed literal
evaluates through `int(value)`, yielding the integer 1. -/
theorem execute_literal_coerces_witness :
    execute_literal (.boolv true) DType.int64 = pyInt (.boolv true) :=
  (execute_literal_coerces (.boolv true) DType.int64).1 rfl

/-- C5 (amended): casting a series to its own logical type is a value-level
no-op for every non-composite type (the timestamp and date handlers return
the data after their explicit equality check, and the generic handler's
`astype` to the series' own dtype is the identity) and for arrays of
primitive value type; `struct` self-casts and array self-casts with a
non-primitive value type raise instead of returning the operand. -/
theorem cast_noop_law (from_type : DType) (data : DSeries)
    (hwt : seriesWellTyped from_type data = true)
    (hsup : noopCastSupported from_type = true) :
    cast_series from_type data from_type = .ok data := by
  have hwt' : data.dtype = ibis_dtype_to_dask from_type := by
    simpa [seriesWellTyped] using hwt
  cases from_type
  case array vt =>
      cases h : ibisTypeToDaskType vt with
      | none => simp [noopCastSupported, h] at hsup
      | some d =>
          cases data with
          | mk dt vals =>
              simp [cast_series, execute_cast_series_array, h,
                map_castArrayCell]
  case timestamp tz => simp [cast_series, execute_cast_series_timestamp]
  case date => simp [cast_series, execute_cast_series_date]
  case struct => simp [noopCastSupported] at hsup
  all_goals
    simp [cast_series, execute_cast_series_generic, ibisTypeToDaskType,
      astype, hwt', ibis_dtype_to_dask, _ibis_dtypes]

/-- C5 counterexample: a series whose logical type is
`array<array<int64>>` (a legitimate materialized value of object dtype)
cast to its own type does not come back unchanged: the array cast handler
rejects the non-primitive value type with a `ValueError` instead. -/
theorem cast_noop_counterexample :
    cast_series (DType.array (DType.array DType.int64)) ⟨NpDtype.object_, []⟩
        (DType.array (DType.array DType.int64))
      = .error .arrayValueTypeNotPrimitive
    ∧ seriesWellTyped (DType.array (DType.array DType.int64))
        ⟨NpDtype.object_, []⟩ = true
    ∧ cast_series (DType.array (DType.array DType.int64)) ⟨NpDtype.object_, []⟩
        (DType.array (DType.array DType.int64))
      ≠ .ok ⟨NpDtype.object_, []⟩ := by
  decide

/-- C5 witness: an `int64` series cast to `int64` is returned unchanged. -/
theorem cast_noop_law_witness :
    cast_series DType.int64 ⟨NpDtype.int64, [Cell.iv 5]⟩ DType.int64
      = .ok ⟨NpDtype.int64, [Cell.iv 5]⟩ :=
  cast_noop_law DType.int64 ⟨NpDtype.int64, [Cell.iv 5]⟩ (by decide) (by decide)

/-- C2 (amended): a table materialization leaf evaluated under an active
time range `(begin, end)` returns exactly the rows whose designated
time-column value `t` satisfies `begin <= t <= end` — a closed interval,
`Series.between` being inclusive on both ends — with the row index reset,
and fails with the missing-time-column error when the designated column is
absent. -/
theorem table_time_filter_inclusive (name : String) (df : DaskDataFrame)
    (b e : Int) :
    (colIndex df TIME_COL = none →
       execute_database_table_client name df (some (b, e))
         = .error (.missingTimeColumn name))
    ∧ ∀ i, colIndex df TIME_COL = some i →
        ∃ out, execute_database_table_client name df (some (b, e)) = .ok out
          ∧ out.columns = df.columns
          ∧ out.rows = df.rows.filter
              (fun r => decide (b ≤ r.getD i 0) && decide (r.getD i 0 ≤ e))
          ∧ out.index = List.range out.rows.length
          ∧ ∀ r, r ∈ out.rows ↔
              r ∈ df.rows ∧ b ≤ r.getD i 0 ∧ r.getD i 0 ≤ e := by
  constructor
  · intro h
    simp [execute_database_table_client, h]
  · intro i h
    refine ⟨⟨df.columns,
        List.range (df.rows.filter
          (fun r => decide (b ≤ r.getD i 0) && decide (r.getD i 0 ≤ e))).length,
        df.rows.filter
          (fun r => decide (b ≤ r.getD i 0) && decide (r.getD i 0 ≤ e))⟩,
      ?_, rfl, rfl, rfl, ?_⟩
    · simp [execute_database_table_client, h]
    · intro r
      simp [List.mem_filter]

/-- C2 counterexample: a table with rows at timestamps 10, 20 and 30
filtered by the time range `(15, 30)` keeps the rows at 20 *and* 30 (the
filter is inclusive of the upper bound), not only the row at 20 as the
half-open reading claims. -/
theorem table_time_filter_half_open_counterexample :
    execute_database_table_client "t" ⟨["time"], [0, 1, 2], [[10], [20], [30]]⟩
        (some (15, 30))
      = .ok ⟨["time"], [0, 1], [[20], [30]]⟩
    ∧ execute_database_table_client "t" ⟨["time"], [0, 1, 2], [[10], [20], [30]]⟩
        (some (15, 30))
      ≠ .ok ⟨["time"], [0], [[20]]⟩ := by
  decide

/-- C2 witness: a frame without the designated time column fails with the
missing-time-column error under an active time range. -/
theorem table_time_filter_inclusive_witness :
    execute_database_table_client "t" ⟨["a"], [], []⟩ (some (0, 10))
      = .error (.missingTimeColumn "t") :=
  (table_time_filter_inclusive "t" ⟨["a"], [], []⟩ 0 10).1 rfl

/-- C3: an `Aggregation` node with a non-empty having clause and no
grouping keys never returns a result — and, whenever the earlier guards
(non-empty metrics, no sort keys) pass, it fails precisely with the
invalid-aggregation error "Filtering out aggregation values is not allowed
without at least one grouping key", for any having predicate and any input
data. -/
theorem aggregation_having_without_group_by_fails (op : AggNode)
    (data : List Row) (hh : op.having ≠ []) (hb : op.by_ = []) :
    (∀ rows, execute_aggregation op data ≠ .ok rows)
    ∧ (op.metrics ≠ [] → op.sort_keys = [] →
        execute_aggregation op data = .error .havingWithoutGroupBy) := by
  have hh' : op.having.isEmpty = false := by
    cases hcase : op.having with
    | nil => exact absurd hcase hh
    | cons a l => rfl
  have hb' : op.by_.isEmpty = true := by rw [hb]; rfl
  constructor
  · intro rows
    by_cases hm : op.metrics.isEmpty = true
    · simp [execute_aggregation, hm]
    · by_cases hs : op.sort_keys.isEmpty = false
      · simp [execute_aggregation, hm, hs]
      · simp [execute_aggregation, hm, hs, hh', hb']
  · intro hm hs
    have hm' : op.metrics.isEmpty = false := by
      cases hcase : op.metrics with
      | nil => exact absurd hcase hm
      | cons a l => rfl
    have hs' : op.sort_keys.isEmpty = true := by rw [hs]; rfl
    simp [execute_aggregation, hm', hs', hh', hb']

/-- A concrete aggregation node with a having clause and no grouping keys,
used to witness C3. -/
def aggOpHavingNoKeys : AggNode :=
  { metrics := [fun rows => (rows.length : Int)]
    predicates := []
    by_ := []
    having := [fun _ => true]
    sort_keys := [] }

/-- C3 witness: the concrete having-without-group-by node fails with the
invalid-aggregation error on a one-row table. -/
theorem aggregation_having_without_group_by_fails_witness :
    execute_aggregation aggOpHavingNoKeys [[1]]
      = .error .havingWithoutGroupBy :=
  (aggregation_having_without_group_by_fails aggOpHavingNoKeys [[1]]
    (by simp [aggOpHavingNoKeys]) rfl).2 (by simp [aggOpHavingNoKeys]) rfl

/-- C6: in aggregation execution, the predicate filters are combined by
logical AND and applied to the input table before any grouping (running
the node on the pre-filtered table with no predicates gives the same
result); the internal length assertion never fires because the combined
having predicate always has exactly one entry per pre-having aggregated
row; and the post-having result's row count equals the having predicate's
true-count. -/
theorem aggregation_predicates_before_grouping_and_having_assert :
    (∀ (op : AggNode) (data : List Row),
        execute_aggregation op data
          = execute_aggregation { op with predicates := [] }
              (data.filter (conjPredicates op.predicates)))
    ∧ (∀ (op : AggNode) (data : List Row),
        execute_aggregation op data ≠ .error .assertLengthMismatch)
    ∧ (∀ (op : AggNode) (data : List Row),
        op.metrics ≠ [] → op.sort_keys = [] → op.having ≠ [] → op.by_ ≠ [] →
        (havingMask op data).length = (aggResultRows op data).length
        ∧ execute_aggregation { op with having := [] } data
            = .ok (aggResultRows op data)
        ∧ execute_aggregation op data
            = .ok (maskFilter (aggResultRows op data) (havingMask op data))
        ∧ (maskFilter (aggResultRows op data) (havingMask op data)).length
            = (havingMask op data).count true) := by
  refine ⟨?_, ?_, ?_⟩
  · intro op data
    have hfil : aggFiltered { op with predicates := [] }
        (data.filter (conjPredicates op.predicates)) = aggFiltered op data := by
      by_cases hp : op.predicates.isEmpty = true
      · have hpe : op.predicates = [] := by
          cases hcase : op.predicates with
          | nil => rfl
          | cons a l => rw [hcase] at hp; simp at hp
        simp [aggFiltered, hpe, filter_conjPredicates_nil]
      · have hp' : op.predicates.isEmpty = false := by
          cases hcase : op.predicates with
          | nil => rw [hcase] at hp; simp at hp
          | cons a l => rfl
        simp [aggFiltered, hp']
    have hgroups : aggGroups { op with predicates := [] }
        (data.filter (conjPredicates op.predicates)) = aggGroups op data := by
      simp only [aggGroups]
      rw [hfil]
    have hres : aggResultRows { op with predicates := [] }
        (data.filter (conjPredicates op.predicates)) = aggResultRows op data := by
      simp only [aggResultRows]
      rw [hgroups]
    have hmask : havingMask { op with predicates := [] }
        (data.filter (conjPredicates op.predicates)) = havingMask op data := by
      simp only [havingMask]
      rw [hgroups]
    simp only [execute_aggregation, hres, hmask]
  · intro op data h
    by_cases hm : op.metrics.isEmpty = true
    · simp [execute_aggregation, hm] at h
    · by_cases hs : op.sort_keys.isEmpty = false
      · simp [execute_aggregation, hm, hs] at h
      · by_cases hh : op.having.isEmpty = false
        · by_cases hby : op.by_.isEmpty = true
          · simp [execute_aggregation, hm, hs, hh, hby] at h
          · simp [execute_aggregation, hm, hs, hh, hby,
              havingMask_length] at h
        · simp [execute_aggregation, hm, hs, hh] at h
  · intro op data hm hs hh hby
    have hm' : op.metrics.isEmpty = false := by
      cases hcase : op.metrics with
      | nil => exact absurd hcase hm
      | cons a l => rfl
    have hs' : op.sort_keys.isEmpty = true := by rw [hs]; rfl
    have hh' : op.having.isEmpty = false := by
      cases hcase : op.having with
      | nil => exact absurd hcase hh
      | cons a l => rfl
    have hby' : op.by_.isEmpty = false := by
      cases hcase : op.by_ with
      | nil => exact absurd hcase hby
      | cons a l => rfl
    refine ⟨havingMask_length op data, ?_, ?_, ?_⟩
    · simp [execute_aggregation, hm', hs']
      rfl
    · simp [execute_aggregation, hm', hs', hh', hby', havingMask_length]
    · exact maskFilter_length_count _ _ (havingMask_length op data).symm

/-- A concrete grouped aggregation node with predicates and a having
clause, used to witness C6. -/
def aggOpGrouped : AggNode :=
  { metrics := [fun rows => (rows.length : Int)]
    predicates := [fun r => decide (0 ≤ r.getD 0 0)]
    by_ := [fun r => r.getD 0 0]
    having := [fun rows => decide (2 ≤ rows.length)]
    sort_keys := [] }

/-- C6 witness: on a three-row table grouped by its first column, the
having filter `count >= 2` keeps exactly the group of size two. -/
theorem aggregation_predicates_before_grouping_and_having_assert_witness :
    execute_aggregation aggOpGrouped [[1, 10], [1, 20], [2, 30]]
      = .ok [⟨[1], [2]⟩] := by
  have h := aggregation_predicates_before_grouping_and_having_assert.2.2
    aggOpGrouped [[1, 10], [1, 20], [2, 30]]
    (by simp [aggOpGrouped]) rfl (by simp [aggOpGrouped])
    (by simp [aggOpGrouped])
  refine h.2.2.1.trans ?_
  decide

/-- C7 (amended): for the `Greatest`, `Least` and `Coalesce` row-wise
reductions, every unsized scalar operand is broadcast to the single common
length of the sized operands before the reduction; string scalars count as
sized by their character length (they join the length check and are
repeated whole); evaluation fails whenever two array operands disagree in
length; and when no operand is sized — which excludes string scalars — the
reduction is applied directly to the scalars.  The element-wise promoted
form is stated for `Greatest` and `Least`; `Coalesce`'s reduction takes
the truth value of whole operand arrays and so fails on multi-element
arrays (see the counterexample). -/
theorem row_reduction_broadcast (value : List RVal) :
    (value.filterMap sizedLen = [] →
       execute_node_greatest_list value
         = .ok (.scalar (cellReduce cellMax (value.map scalarCellOf)))
       ∧ execute_node_least_list value
         = .ok (.scalar (cellReduce cellMin (value.map scalarCellOf)))
       ∧ execute_node_coalesce value
         = .ok (.scalar (coalesce_cells (value.map scalarCellOf))))
    ∧ (∀ xs ys, RVal.arr xs ∈ value → RVal.arr ys ∈ value →
        xs.length ≠ ys.length →
        execute_node_greatest_list value = .error .shapeMismatch
        ∧ execute_node_least_list value = .error .shapeMismatch
        ∧ execute_node_coalesce value = .error .shapeMismatch)
    ∧ (∀ n, dedupFirst (value.filterMap sizedLen) = [n] →
        execute_node_greatest_list value
          = .ok (squeeze ((List.range n).map (fun i =>
              cellReduce cellMax
                ((value.map (promote_to_sequence n)).map
                  (fun s => s.getD i .nullc)))))
        ∧ execute_node_least_list value
          = .ok (squeeze ((List.range n).map (fun i =>
              cellReduce cellMin
                ((value.map (promote_to_sequence n)).map
                  (fun s => s.getD i .nullc)))))) := by
  refine ⟨?_, ?_, ?_⟩
  · intro h
    have hd : dedupFirst (value.filterMap sizedLen) = [] := by
      rw [h]; rfl
    refine ⟨?_, ?_, ?_⟩ <;>
      simp [execute_node_greatest_list, execute_node_least_list,
        execute_node_coalesce, compute_row_reduction, hd]
  · intro xs ys hxs hys hne
    have hx : xs.length ∈ value.filterMap sizedLen :=
      List.mem_filterMap.2 ⟨.arr xs, hxs, rfl⟩
    have hy : ys.length ∈ value.filterMap sizedLen :=
      List.mem_filterMap.2 ⟨.arr ys, hys, rfl⟩
    have hx' := (mem_dedupFirst (value.filterMap sizedLen) xs.length).2 hx
    have hy' := (mem_dedupFirst (value.filterMap sizedLen) ys.length).2 hy
    cases hd : dedupFirst (value.filterMap sizedLen) with
    | nil => rw [hd] at hx'; simp at hx'
    | cons a l =>
        cases l with
        | nil =>
            rw [hd] at hx' hy'
            simp at hx' hy'
            exact absurd (hx'.trans hy'.symm) hne
        | cons b l2 =>
            refine ⟨?_, ?_, ?_⟩ <;>
              simp [execute_node_greatest_list, execute_node_least_list,
                execute_node_coalesce, compute_row_reduction, hd]
  · intro n h
    constructor <;>
      simp [execute_node_greatest_list, execute_node_least_list,
        compute_row_reduction, h, seqColumnReduce, Except.map]

/-- C7 counterexample: `Coalesce` over the two string scalars "ab" and
"xyz" fails with the length-mismatch `ValueError` (strings are `Sized`)
instead of applying the reduction directly to the scalars, and `Coalesce`
over two equal-length arrays fails with the ambiguous-truth-value
`ValueError` instead of reducing element-wise to `[1, 8]`. -/
theorem row_reduction_counterexample :
    execute_node_coalesce [.scalar (.sv "ab"), .scalar (.sv "xyz")]
      = .error .shapeMismatch
    ∧ execute_node_coalesce [.arr [.iv 1, .nullc], .arr [.iv 7, .iv 8]]
      = .error .ambiguousTruthValue
    ∧ execute_node_coalesce [.arr [.iv 1, .nullc], .arr [.iv 7, .iv 8]]
      ≠ .ok (.arr [.iv 1, .iv 8]) := by
  decide

/-- C7 witness: `Greatest` of the array `[1, 5]` and the scalar `3`
broadcasts the scalar to length two and reduces element-wise to `[3, 5]`. -/
theorem row_reduction_broadcast_witness :
    execute_node_greatest_list [.arr [.iv 1, .iv 5], .scalar (.iv 3)]
      = .ok (.arr [.iv 3, .iv 5]) := by
  have h := (row_reduction_broadcast
    [.arr [.iv 1, .iv 5], .scalar (.iv 3)]).2.2 2 (by decide)
  refine h.1.trans ?_
  decide

/-- C8 (amended): `Where` supports seven of the eight shape combinations of
condition, true branch and false branch: the stated examples hold
(`Where([true,false], [1,2], [9,9]) = [1,9]`; a scalar-true condition with
series branches returns the selected branch directly, with no broadcast of
the unselected branch), and scalar operands are broadcast to the shape of
the array-shaped sibling in the registered mixed cases — but the
combination (series condition, scalar true branch, series false branch)
has no registered handler and fails with `NoImplementationFound`. -/
theorem where_shape_combinations :
    execute_node_where (.seriesB [true, false]) (.series [1, 2])
        (.series [9, 9]) = .ok (.series [1, 9])
    ∧ (∀ ts fs : List Int,
        execute_node_where (.scalarB true) (.series ts) (.series fs)
          = .ok (.series ts))
    ∧ (∀ (bs : List Bool) (ts : List Int) (f : Int),
        execute_node_where (.seriesB bs) (.series ts) (.scalar f)
          = .ok (.series (series_where ts bs (.scalar f))))
    ∧ (∀ (bs : List Bool) (t f : Int),
        execute_node_where (.seriesB bs) (.scalar t) (.scalar f)
          = .ok (.series
              (series_where (List.replicate bs.length t) bs (.scalar f))))
    ∧ (∀ (b : Bool) (ts : List Int) (f : Int),
        execute_node_where (.scalarB b) (.series ts) (.scalar f)
          = .ok (if b then .series ts
                 else .series (List.replicate ts.length f)))
    ∧ (∀ (b : Bool) (t : Int) (fs : List Int),
        execute_node_where (.scalarB b) (.scalar t) (.series fs)
          = .ok (if b then .series (List.replicate fs.length t)
                 else .series fs))
    ∧ (∀ (cond : List Bool) (t : Int) (fs : List Int),
        execute_node_where (.seriesB cond) (.scalar t) (.series fs)
          = .error .noImplementationFound) :=
  ⟨rfl, fun _ _ => rfl, fun _ _ _ => rfl, fun _ _ _ => rfl,
   fun _ _ _ => rfl, fun _ _ _ => rfl, fun _ _ _ => rfl⟩

/-- C8 counterexample: the combination (series condition, scalar true
branch, series false branch) is not supported — `Where([true,false], 1,
[9,9])` fails with `NoImplementationFound` instead of broadcasting the
scalar and yielding `[1, 9]`. -/
theorem where_missing_combination_counterexample :
    execute_node_where (.seriesB [true, false]) (.scalar 1) (.series [9, 9])
      = .error .noImplementationFound
    ∧ execute_node_where (.seriesB [true, false]) (.scalar 1) (.series [9, 9])
      ≠ .ok (.series [1, 9]) := by
  decide

end IbisDask
